import Mathlib

/-!
Verification of the nri-plugin-systemd container-adjustment engine.

The definitions below are a shallow embedding of `systemdplugin.go`:
the container/pod data model, the four component functions
(`isSystemdContainer`, `configureCgroupMount`, `addSystemdTmpfsMounts`,
`setSystemdEnvironment`) and the `CreateContainer` request handler.
The external host probe `os.Stat("/sys/fs/cgroup")` is modelled by an
explicit boolean parameter `hostCgroupPresent`; Go's `nil` pod pointer
is modelled by `Option PodSandbox`; a Go `error` result by
`Except`/`Option String`.  Annotation maps (unique keys) are modelled
as association lists queried with `List.lookup`.  Go's
`strings.HasPrefix` is modelled as a character-list prefix test, which
agrees with Go's byte-level test on UTF-8 strings.
-/

namespace NriSystemd

structure Mount where
  destination : String
  type : String
  source : String
  options : List String
  deriving Repr, DecidableEq

structure KeyValue where
  key : String
  value : String
  deriving Repr, DecidableEq

structure PodSandbox where
  name : String
  annotations : List (String × String)
  deriving Repr, DecidableEq

structure Container where
  id : String
  name : String
  args : List String
  env : List String
  mounts : List Mount
  deriving Repr, DecidableEq

structure ContainerAdjustment where
  removeMounts : List String := []
  addMounts : List Mount := []
  env : List KeyValue := []
  deriving Repr, DecidableEq

def ContainerAdjustment.removeMount (a : ContainerAdjustment) (dest : String) :
    ContainerAdjustment :=
  { a with removeMounts := a.removeMounts ++ [dest] }

def ContainerAdjustment.addMount (a : ContainerAdjustment) (m : Mount) :
    ContainerAdjustment :=
  { a with addMounts := a.addMounts ++ [m] }

def ContainerAdjustment.addEnv (a : ContainerAdjustment) (k v : String) :
    ContainerAdjustment :=
  { a with env := a.env ++ [⟨k, v⟩] }

structure ContainerUpdate where
  deriving Repr, DecidableEq

def isSystemdContainer (container : Container) : Bool :=
  match container.args with
  | [] => false
  | cmd :: _ =>
    cmd == "/sbin/init" || cmd == "/lib/systemd/systemd" ||
      cmd == "/usr/lib/systemd/systemd"

def configureCgroupMount (hostCgroupPresent : Bool) (adjust : ContainerAdjustment)
    (container : Container) : Except String ContainerAdjustment :=
  if !hostCgroupPresent then
    .ok adjust
  else
    match container.mounts.find? (fun m => m.destination == "/sys/fs/cgroup") with
    | none => .error "cgroup mount required for systemd container"
    | some existingMount =>
      if existingMount.options.contains "ro" then
        let options := existingMount.options.map (fun opt => if opt == "ro" then "rw" else opt)
        .ok ((adjust.removeMount "/sys/fs/cgroup").addMount
          { destination := existingMount.destination
            type := existingMount.type
            source := existingMount.source
            options := options })
      else
        .ok adjust

def tmpfsMounts : List (String × String) :=
  [("/run", "mode=755"), ("/run/lock", "mode=755"),
   ("/tmp", "mode=1777"), ("/var/log/journal", "mode=755")]

def tmpfsMountFor (m : String × String) : Mount :=
  { destination := m.1
    type := "tmpfs"
    source := "tmpfs"
    options := ["rw", "rprivate", "nosuid", "nodev", m.2] }

def addSystemdTmpfsMounts (adjust : ContainerAdjustment) (container : Container) :
    ContainerAdjustment :=
  let existingMounts := container.mounts.map (fun m => m.destination)
  tmpfsMounts.foldl
    (fun adj m =>
      if existingMounts.contains m.1 then adj
      else adj.addMount (tmpfsMountFor m))
    adjust

def setSystemdEnvironment (adjust : ContainerAdjustment) (pod : Option PodSandbox)
    (container : Container) : ContainerAdjustment :=
  let adjust := adjust.addEnv "container" "other"
  let hasContainerUUID := container.env.any (fun env => "container_uuid=".data.isPrefixOf env.data)
  let adjust :=
    if !hasContainerUUID && container.id != "" then
      adjust.addEnv "container_uuid" container.id
    else adjust
  match pod with
  | some p =>
    match p.annotations.lookup "io.kubernetes.pod.uid" with
    | some uuid => if !hasContainerUUID then adjust.addEnv "container_uuid" uuid else adjust
    | none => adjust
  | none => adjust

def containerName (pod : Option PodSandbox) (container : Container) : String :=
  match pod with
  | some p => p.name ++ "/" ++ container.name
  | none => container.name

def CreateContainer (hostCgroupPresent : Bool) (pod : Option PodSandbox)
    (container : Container) :
    Option ContainerAdjustment × Option (List ContainerUpdate) × Option String :=
  if !isSystemdContainer container then
    (none, none, none)
  else
    match configureCgroupMount hostCgroupPresent {} container with
    | .error e => (none, none, some e)
    | .ok adjust =>
      let adjust := addSystemdTmpfsMounts adjust container
      let adjust := setSystemdEnvironment adjust pod container
      (some adjust, none, none)

/-- Modelled from the spec: the application of a computed adjustment to a
container, performed by the host runtime (outside this repository).  Per the
spec's idempotence property, mounts whose destination carries a removal
directive are dropped, added mounts are appended, and recorded environment
additions are appended to the declared `KEY=VALUE` environment. -/
def applyAdjustment (container : Container) (a : ContainerAdjustment) : Container :=
  { container with
    mounts := (container.mounts.filter
      (fun m => !(a.removeMounts.contains m.destination))) ++ a.addMounts
    env := container.env ++ a.env.map (fun kv => kv.key ++ "=" ++ kv.value) }

-- Structural lemmas about the embedded operations

theorem setSystemdEnvironment_eq (a : ContainerAdjustment) (pod : Option PodSandbox)
    (c : Container) :
    setSystemdEnvironment a pod c =
      { a with env := a.env ++ ⟨"container", "other"⟩ ::
          ((if !(c.env.any fun e => "container_uuid=".data.isPrefixOf e.data) && c.id != "" then
              [⟨"container_uuid", c.id⟩] else []) ++
           (match pod with
            | some p =>
              match p.annotations.lookup "io.kubernetes.pod.uid" with
              | some uuid =>
                if !(c.env.any fun e => "container_uuid=".data.isPrefixOf e.data) then
                  [⟨"container_uuid", uuid⟩] else []
              | none => []
            | none => [])) } := by
  cases pod with
  | none =>
    by_cases h : (c.env.any fun e => "container_uuid=".data.isPrefixOf e.data) = true <;>
      by_cases h2 : (c.id != "") = true <;>
      simp [setSystemdEnvironment, ContainerAdjustment.addEnv, h, h2]
  | some p =>
    cases hl : p.annotations.lookup "io.kubernetes.pod.uid" <;>
      by_cases h : (c.env.any fun e => "container_uuid=".data.isPrefixOf e.data) = true <;>
      by_cases h2 : (c.id != "") = true <;>
      simp [setSystemdEnvironment, ContainerAdjustment.addEnv, h, h2, hl]

theorem setSystemdEnvironment_removeMounts (a : ContainerAdjustment)
    (pod : Option PodSandbox) (c : Container) :
    (setSystemdEnvironment a pod c).removeMounts = a.removeMounts := by
  rw [setSystemdEnvironment_eq]

theorem setSystemdEnvironment_addMounts (a : ContainerAdjustment)
    (pod : Option PodSandbox) (c : Container) :
    (setSystemdEnvironment a pod c).addMounts = a.addMounts := by
  rw [setSystemdEnvironment_eq]

theorem addSystemdTmpfsMounts_eq (a : ContainerAdjustment) (c : Container) :
    addSystemdTmpfsMounts a c =
      { a with addMounts := a.addMounts ++
          ((tmpfsMounts.filter
            (fun m => !((c.mounts.map (fun mm => mm.destination)).contains m.1))).map
              tmpfsMountFor) } := by
  unfold addSystemdTmpfsMounts
  generalize c.mounts.map (fun mm => mm.destination) = ex
  have key : forall (cat : List (String × String)) (b : ContainerAdjustment),
      cat.foldl (fun adj m => if ex.contains m.1 then adj else adj.addMount (tmpfsMountFor m)) b =
        { b with addMounts := b.addMounts ++
            ((cat.filter (fun m => !(ex.contains m.1))).map tmpfsMountFor) } := by
    intro cat
    induction cat with
    | nil => intro b; simp
    | cons hd tl ih =>
      intro b
      by_cases h : ex.contains hd.1 = true
      · have hmem : hd.1 ∈ ex := by simpa using h
        rw [List.foldl_cons, if_pos h, ih]
        simp [List.filter_cons, hmem]
      · have hmem : hd.1 ∉ ex := by simpa using h
        rw [List.foldl_cons, if_neg h, ih]
        simp [ContainerAdjustment.addMount, List.filter_cons, hmem]
  exact key tmpfsMounts a

theorem configureCgroupMount_noHost (a : ContainerAdjustment) (c : Container) :
    configureCgroupMount false a c = .ok a := rfl

theorem configureCgroupMount_noMount (a : ContainerAdjustment) (c : Container)
    (hf : c.mounts.find? (fun mm => mm.destination == "/sys/fs/cgroup") = none) :
    configureCgroupMount true a c =
      .error "cgroup mount required for systemd container" := by
  simp [configureCgroupMount, hf]

theorem configureCgroupMount_noRo (a : ContainerAdjustment) (c : Container) (m : Mount)
    (hf : c.mounts.find? (fun mm => mm.destination == "/sys/fs/cgroup") = some m)
    (hro : m.options.contains "ro" = false) :
    configureCgroupMount true a c = .ok a := by
  have hro2 : ¬("ro" ∈ m.options) := by simpa using hro
  simp [configureCgroupMount, hf, hro2]

theorem configureCgroupMount_ro (a : ContainerAdjustment) (c : Container) (m : Mount)
    (hf : c.mounts.find? (fun mm => mm.destination == "/sys/fs/cgroup") = some m)
    (hro : m.options.contains "ro" = true) :
    configureCgroupMount true a c = .ok
      { a with removeMounts := a.removeMounts ++ ["/sys/fs/cgroup"],
               addMounts := a.addMounts ++ [⟨m.destination, m.type, m.source,
                 m.options.map (fun opt => if opt == "ro" then "rw" else opt)⟩] } := by
  have hro2 : "ro" ∈ m.options := by simpa using hro
  simp [configureCgroupMount, hf, hro2, ContainerAdjustment.removeMount,
    ContainerAdjustment.addMount]

theorem CreateContainer_ok (hc : Bool) (pod : Option PodSandbox) (c : Container)
    (a0 : ContainerAdjustment)
    (hdet : isSystemdContainer c = true)
    (hcg : configureCgroupMount hc {} c = .ok a0) :
    CreateContainer hc pod c =
      (some (setSystemdEnvironment (addSystemdTmpfsMounts a0 c) pod c), none, none) := by
  simp [CreateContainer, hdet, hcg]

theorem tmpfs_dest_ne_cgroup : ∀ m ∈ tmpfsMounts, (m.1 == "/sys/fs/cgroup") = false := by
  decide

theorem aux_dest_ne_cgroup (p : String × String → Bool) :
    ∀ mm ∈ (tmpfsMounts.filter p).map tmpfsMountFor,
      (mm.destination == "/sys/fs/cgroup") = false := by
  intro mm hmm
  simp only [List.mem_map, List.mem_filter] at hmm
  obtain ⟨x, ⟨hx, _⟩, rfl⟩ := hmm
  exact tmpfs_dest_ne_cgroup x hx

theorem rw_options_no_ro (l : List String) :
    ((l.map (fun opt => if opt == "ro" then "rw" else opt)).contains "ro") = false := by
  induction l with
  | nil => rfl
  | cons hd tl ih =>
    by_cases h : (hd == "ro") = true
    · simp only [List.map_cons, if_pos h]
      simpa using ih
    · simp only [List.map_cons, if_neg h, List.contains_cons]
      have hne : ("ro" == hd) = false := by
        cases hb : ("ro" == hd) with
        | false => rfl
        | true => exact absurd (beq_of_eq (eq_of_beq hb).symm) h
      rw [hne, Bool.false_or]
      exact ih

theorem isSystemdContainer_applyAdjustment (c : Container) (a : ContainerAdjustment) :
    isSystemdContainer (applyAdjustment c a) = isSystemdContainer c := rfl

theorem filter_contains_nil (l : List Mount) :
    (l.filter (fun mm => !(([] : List String).contains mm.destination))) = l :=
  List.filter_eq_self.mpr (fun _ _ => rfl)

theorem aux_filter_nil_of_present (c2 : Container)
    (hall : ∀ m ∈ tmpfsMounts,
      ((c2.mounts.map (fun mm => mm.destination)).contains m.1) = true) :
    (tmpfsMounts.filter
      (fun mp => !((c2.mounts.map (fun mm => mm.destination)).contains mp.1))) = [] := by
  rw [List.filter_eq_nil_iff]
  intro x hx
  rw [hall x hx]
  decide

theorem catalog_present (c : Container) (L : List Mount)
    (hkeep : ∀ mm ∈ c.mounts, mm.destination = "/sys/fs/cgroup" ∨ mm ∈ L)
    (hauxmem : ∀ x ∈ tmpfsMounts,
      ((c.mounts.map (fun mm => mm.destination)).contains x.1) = false →
        tmpfsMountFor x ∈ L) :
    ∀ m ∈ tmpfsMounts, ((L.map (fun mm => mm.destination)).contains m.1) = true := by
  intro m hm
  have hne : m.1 ≠ "/sys/fs/cgroup" := by
    have h1 := tmpfs_dest_ne_cgroup m hm
    simpa using h1
  by_cases h0 : ((c.mounts.map (fun mm => mm.destination)).contains m.1) = true
  · have h1 : m.1 ∈ c.mounts.map (fun mm => mm.destination) := by simpa using h0
    obtain ⟨mm, hmm, hdd⟩ := List.mem_map.mp h1
    rcases hkeep mm hmm with hcg | hL
    · exact absurd (hdd ▸ hcg) hne
    · have h2 : m.1 ∈ L.map (fun mm => mm.destination) := List.mem_map.mpr ⟨mm, hL, hdd⟩
      simpa using h2
  · have h0f : ((c.mounts.map (fun mm => mm.destination)).contains m.1) = false :=
      eq_false_of_ne_true h0
    have hin : tmpfsMountFor m ∈ L := hauxmem m hm h0f
    have h2 : m.1 ∈ L.map (fun mm => mm.destination) :=
      List.mem_map.mpr ⟨tmpfsMountFor m, hin, rfl⟩
    simpa using h2

theorem second_run_ok (hc : Bool) (pod : Option PodSandbox) (c2 : Container)
    (hdet2 : isSystemdContainer c2 = true)
    (hcg2 : configureCgroupMount hc {} c2 = .ok {})
    (hall : ∀ m ∈ tmpfsMounts,
      ((c2.mounts.map (fun mm => mm.destination)).contains m.1) = true) :
    ∃ a2, CreateContainer hc pod c2 = (some a2, none, none) ∧
      a2.removeMounts = [] ∧ a2.addMounts = [] := by
  refine ⟨_, CreateContainer_ok hc pod c2 {} hdet2 hcg2, ?_, ?_⟩
  · rw [setSystemdEnvironment_removeMounts, addSystemdTmpfsMounts_eq]
  · rw [setSystemdEnvironment_addMounts, addSystemdTmpfsMounts_eq]
    dsimp only
    rw [aux_filter_nil_of_present c2 hall]
    simp

theorem run_again (hc : Bool) (pod : Option PodSandbox) (c : Container)
    (a : ContainerAdjustment)
    (hdet : isSystemdContainer c = true)
    (hrsub : ∀ d ∈ a.removeMounts, d = "/sys/fs/cgroup")
    (haux : ∀ x ∈ tmpfsMounts,
      ((c.mounts.map (fun mm => mm.destination)).contains x.1) = false →
        tmpfsMountFor x ∈ a.addMounts)
    (hcg2 : configureCgroupMount hc {} (applyAdjustment c a) = .ok {}) :
    ∃ a2, CreateContainer hc pod (applyAdjustment c a) = (some a2, none, none) ∧
      a2.removeMounts = [] ∧ a2.addMounts = [] := by
  apply second_run_ok hc pod _ (by rw [isSystemdContainer_applyAdjustment]; exact hdet) hcg2
  apply catalog_present c
  · intro mm hmm
    by_cases hd : mm.destination = "/sys/fs/cgroup"
    · exact Or.inl hd
    · right
      show mm ∈ (c.mounts.filter
        (fun m => !(a.removeMounts.contains m.destination))) ++ a.addMounts
      apply List.mem_append_left
      rw [List.mem_filter]
      refine ⟨hmm, ?_⟩
      have hcf : a.removeMounts.contains mm.destination = false := by
        cases hb : a.removeMounts.contains mm.destination with
        | false => rfl
        | true =>
          have hmemr : mm.destination ∈ a.removeMounts := by simpa using hb
          exact absurd (hrsub _ hmemr) hd
      have hnm : mm.destination ∉ a.removeMounts := by simpa using hcf
      simp [hnm]
  · intro x hx hnc
    show tmpfsMountFor x ∈ (c.mounts.filter
      (fun m => !(a.removeMounts.contains m.destination))) ++ a.addMounts
    exact List.mem_append_right _ (haux x hx hnc)

-- Claim theorems

/-- Claim C4: the detector returns false on empty `args` and otherwise returns
true exactly when the first argument equals one of `/sbin/init`,
`/lib/systemd/systemd`, `/usr/lib/systemd/systemd`, ignoring all later
arguments. -/
theorem claim_C4_detector (c : Container) :
    isSystemdContainer c = true ↔
      ∃ first rest, c.args = first :: rest ∧
        (first = "/sbin/init" ∨ first = "/lib/systemd/systemd" ∨
          first = "/usr/lib/systemd/systemd") := by
  rcases c with ⟨id, name, args, env, mounts⟩
  cases args with
  | nil => simp [isSystemdContainer]
  | cons cmd rest => simp [isSystemdContainer, or_assoc]

/-- Claim C8: for a container the detector classifies as non-systemd, the
request handler returns nil adjustment, nil updates and nil error. -/
theorem claim_C8_not_applicable (hostCgroupPresent : Bool) (pod : Option PodSandbox)
    (c : Container) (h : isSystemdContainer c = false) :
    CreateContainer hostCgroupPresent pod c = (none, none, none) := by
  simp [CreateContainer, h]

/-- Witness for C8 at `args = ["/bin/bash"]`. -/
theorem claim_C8_witness :
    isSystemdContainer ⟨"", "c", ["/bin/bash"], [], []⟩ = false ∧
      CreateContainer true (some ⟨"p", []⟩) ⟨"", "c", ["/bin/bash"], [], []⟩ =
        (none, none, none) :=
  ⟨rfl, claim_C8_not_applicable true (some ⟨"p", []⟩) ⟨"", "c", ["/bin/bash"], [], []⟩ rfl⟩

/-- Claim C2: a detected systemd container whose declared mounts contain no
entry with destination exactly `/sys/fs/cgroup`, with the host cgroup
filesystem present, makes the handler return a non-nil error together with a
nil adjustment and nil updates. -/
theorem claim_C2_missing_cgroup_mount_fails (pod : Option PodSandbox) (c : Container)
    (hdet : isSystemdContainer c = true)
    (hnone : ∀ m ∈ c.mounts, m.destination ≠ "/sys/fs/cgroup") :
    CreateContainer true pod c =
      (none, none, some "cgroup mount required for systemd container") := by
  have hfind : c.mounts.find? (fun m => m.destination == "/sys/fs/cgroup") = none := by
    rw [List.find?_eq_none]
    intro m hm
    simpa using hnone m hm
  simp [CreateContainer, hdet, configureCgroupMount, hfind]

/-- Witness for C2: a `/sbin/init` container with no mounts at all. -/
theorem claim_C2_witness :
    isSystemdContainer ⟨"id1", "c", ["/sbin/init"], [], []⟩ = true ∧
      (∀ m ∈ (⟨"id1", "c", ["/sbin/init"], [], []⟩ : Container).mounts,
        m.destination ≠ "/sys/fs/cgroup") ∧
      CreateContainer true (some ⟨"p", []⟩) ⟨"id1", "c", ["/sbin/init"], [], []⟩ =
        (none, none, some "cgroup mount required for systemd container") :=
  ⟨rfl, by simp,
    claim_C2_missing_cgroup_mount_fails (some ⟨"p", []⟩) ⟨"id1", "c", ["/sbin/init"], [], []⟩
      rfl (by simp)⟩

/-- Claim C5: the auxiliary-mount injector appends, in the fixed catalog
order `/run`, `/run/lock`, `/tmp`, `/var/log/journal`, exactly one tmpfs
mount (type `tmpfs`, source `tmpfs`, options `rw, rprivate, nosuid, nodev,
<mode>` in that order) for each catalog destination the container does not
already declare, and nothing for declared ones; it changes no other part of
the adjustment and, being a total function, cannot fail. -/
theorem claim_C5_tmpfs_injection (a : ContainerAdjustment) (c : Container) :
    (addSystemdTmpfsMounts a c).addMounts =
        a.addMounts ++
          ((tmpfsMounts.filter
            (fun m => !((c.mounts.map (fun mm => mm.destination)).contains m.1))).map
              tmpfsMountFor)
      ∧ (addSystemdTmpfsMounts a c).removeMounts = a.removeMounts
      ∧ (addSystemdTmpfsMounts a c).env = a.env
      ∧ tmpfsMounts = [("/run", "mode=755"), ("/run/lock", "mode=755"),
          ("/tmp", "mode=1777"), ("/var/log/journal", "mode=755")]
      ∧ (∀ m : String × String, tmpfsMountFor m =
          ⟨m.1, "tmpfs", "tmpfs", ["rw", "rprivate", "nosuid", "nodev", m.2]⟩) := by
  rw [addSystemdTmpfsMounts_eq]
  exact ⟨rfl, rfl, rfl, rfl, fun m => rfl⟩

/-- Claim C6: when the container's declared environment already has a
`container_uuid=` entry, the environment synthesizer adds only
`container=other` and no `container_uuid` at all, for every pod (with or
without the pod-UID annotation) and every container id. -/
theorem claim_C6_user_uuid_wins (a : ContainerAdjustment) (pod : Option PodSandbox)
    (c : Container)
    (h : c.env.any (fun e => "container_uuid=".data.isPrefixOf e.data) = true) :
    (setSystemdEnvironment a pod c).env = a.env ++ [⟨"container", "other"⟩] := by
  rw [setSystemdEnvironment_eq]
  cases pod with
  | none => simp [h]
  | some p =>
    cases hl : p.annotations.lookup "io.kubernetes.pod.uid" <;> simp [h, hl]

/-- Witness for C6: declared `container_uuid=user-value` wins even with a
non-empty id and a pod-UID annotation present. -/
theorem claim_C6_witness :
    ((⟨"abc123", "c", ["/sbin/init"], ["container_uuid=user-value"], []⟩ : Container).env.any
        (fun e => "container_uuid=".data.isPrefixOf e.data) = true) ∧
      (setSystemdEnvironment {} (some ⟨"p", [("io.kubernetes.pod.uid", "xyz")]⟩)
          ⟨"abc123", "c", ["/sbin/init"], ["container_uuid=user-value"], []⟩).env =
        [⟨"container", "other"⟩] :=
  ⟨by decide,
    claim_C6_user_uuid_wins {} (some ⟨"p", [("io.kubernetes.pod.uid", "xyz")]⟩)
      ⟨"abc123", "c", ["/sbin/init"], ["container_uuid=user-value"], []⟩ (by decide)⟩

/-- Claim C10: with an absent (`none`) pod, the environment synthesizer
still totals: it adds `container=other` and the id-derived `container_uuid`
but no annotation-derived value, leaves the mounts of the adjustment
unchanged, and `containerName` degrades to the bare container name. -/
theorem claim_C10_nil_pod (a : ContainerAdjustment) (c : Container) :
    (setSystemdEnvironment a none c).env =
        a.env ++ ⟨"container", "other"⟩ ::
          (if !(c.env.any fun e => "container_uuid=".data.isPrefixOf e.data) && c.id != "" then
            [⟨"container_uuid", c.id⟩] else [])
      ∧ (setSystemdEnvironment a none c).removeMounts = a.removeMounts
      ∧ (setSystemdEnvironment a none c).addMounts = a.addMounts
      ∧ containerName none c = c.name := by
  rw [setSystemdEnvironment_eq]
  refine ⟨by simp, rfl, rfl, rfl⟩

/-- Claim C1 is refuted by the code (code bug): with empty declared
environment, non-empty id `abc123` and pod annotation
`io.kubernetes.pod.uid = xyz`, the handler records TWO `container_uuid`
environment additions (`abc123` then `xyz`), because the Go code never sets
`hasContainerUUID` after the id-based addition.  The spec (and the claim)
require at most one addition, with the id taking strict priority. -/
theorem claim_C1_failing_eval :
    ((CreateContainer true (some ⟨"pod", [("io.kubernetes.pod.uid", "xyz")]⟩)
        ⟨"abc123", "ctr", ["/sbin/init"], [],
          [⟨"/sys/fs/cgroup", "cgroup2", "cgroup", ["ro"]⟩]⟩).1.map
      (fun a => a.env.filter (fun kv => kv.key == "container_uuid"))) =
      some [⟨"container_uuid", "abc123"⟩, ⟨"container_uuid", "xyz"⟩] := by
  decide

/-- Claim C3: for a detected systemd container whose (first) `/sys/fs/cgroup`
mount is found, if its options contain `ro` the adjustment holds exactly one
removal directive for `/sys/fs/cgroup` and exactly one addition for that
destination, preserving destination/type/source and mapping every `ro` to
`rw` with all other options and their order (and the length) preserved; if
`ro` is absent there is neither a removal nor a `/sys/fs/cgroup` addition. -/
theorem claim_C3_cgroup_rewrite (pod : Option PodSandbox) (c : Container) (m : Mount)
    (hdet : isSystemdContainer c = true)
    (hf : c.mounts.find? (fun mm => mm.destination == "/sys/fs/cgroup") = some m) :
    ∃ a, CreateContainer true pod c = (some a, none, none) ∧
      (m.options.contains "ro" = true →
        a.removeMounts = ["/sys/fs/cgroup"] ∧
        a.addMounts.filter (fun mm => mm.destination == "/sys/fs/cgroup") =
          [⟨m.destination, m.type, m.source,
            m.options.map (fun opt => if opt == "ro" then "rw" else opt)⟩] ∧
        (m.options.map (fun opt => if opt == "ro" then "rw" else opt)).length =
          m.options.length) ∧
      (m.options.contains "ro" = false →
        a.removeMounts = [] ∧
        a.addMounts.filter (fun mm => mm.destination == "/sys/fs/cgroup") = []) := by
  have hdest : (m.destination == "/sys/fs/cgroup") = true := by
    have h2 := List.find?_some hf
    simpa using h2
  have haux : ((tmpfsMounts.filter
      (fun mp => !((c.mounts.map (fun mm => mm.destination)).contains mp.1))).map
        tmpfsMountFor).filter (fun mm => mm.destination == "/sys/fs/cgroup") = [] := by
    rw [List.filter_eq_nil_iff]
    intro x hx
    simp [aux_dest_ne_cgroup _ x hx]
  cases hro : m.options.contains "ro" with
  | true =>
    refine ⟨_, CreateContainer_ok true pod c _ hdet (configureCgroupMount_ro {} c m hf hro),
      fun _ => ⟨?_, ?_, List.length_map _ _⟩, fun hfalse => Bool.noConfusion hfalse⟩
    · rw [setSystemdEnvironment_removeMounts, addSystemdTmpfsMounts_eq]
      rfl
    · rw [setSystemdEnvironment_addMounts, addSystemdTmpfsMounts_eq]
      dsimp only
      rw [List.nil_append, List.filter_append, haux, List.append_nil]
      simp [hdest]
  | false =>
    refine ⟨_, CreateContainer_ok true pod c _ hdet (configureCgroupMount_noRo {} c m hf hro),
      fun htrue => Bool.noConfusion htrue, fun _ => ⟨?_, ?_⟩⟩
    · rw [setSystemdEnvironment_removeMounts, addSystemdTmpfsMounts_eq]
    · rw [setSystemdEnvironment_addMounts, addSystemdTmpfsMounts_eq]
      dsimp only
      rw [List.nil_append]
      exact haux

/-- Claim C7: when the host lacks a cgroup filesystem, a detected systemd
container still yields no error and a non-nil adjustment with no
`/sys/fs/cgroup` removal or addition, but with the auxiliary tmpfs additions
and the environment additions (`container=other` plus the id/pod-UID
`container_uuid` values the code records). -/
theorem claim_C7_host_unsupported_soft_skip (pod : Option PodSandbox) (c : Container)
    (hdet : isSystemdContainer c = true) :
    ∃ a, CreateContainer false pod c = (some a, none, none) ∧
      a.removeMounts = [] ∧
      a.addMounts = ((tmpfsMounts.filter
          (fun m => !((c.mounts.map (fun mm => mm.destination)).contains m.1))).map
            tmpfsMountFor) ∧
      a.addMounts.filter (fun mm => mm.destination == "/sys/fs/cgroup") = [] ∧
      a.env = ⟨"container", "other"⟩ ::
        ((if !(c.env.any fun e => "container_uuid=".data.isPrefixOf e.data) && c.id != "" then
            [⟨"container_uuid", c.id⟩] else []) ++
         (match pod with
          | some p =>
            match p.annotations.lookup "io.kubernetes.pod.uid" with
            | some uuid =>
              if !(c.env.any fun e => "container_uuid=".data.isPrefixOf e.data) then
                [⟨"container_uuid", uuid⟩] else []
            | none => []
          | none => [])) := by
  refine ⟨_, CreateContainer_ok false pod c {} hdet rfl, ?_, ?_, ?_, ?_⟩
  · rw [setSystemdEnvironment_removeMounts, addSystemdTmpfsMounts_eq]
  · rw [setSystemdEnvironment_addMounts, addSystemdTmpfsMounts_eq]
    simp
  · rw [setSystemdEnvironment_addMounts, addSystemdTmpfsMounts_eq]
    show (({} : ContainerAdjustment).addMounts ++ _).filter _ = _
    rw [List.filter_append, List.filter_eq_nil_iff.mpr (by intro x hx; cases hx)]
    rw [List.nil_append, List.filter_eq_nil_iff]
    intro x hx
    simp [aux_dest_ne_cgroup _ x hx]
  · rw [setSystemdEnvironment_eq]
    simp [addSystemdTmpfsMounts_eq]

/-- Claim C9: applying the computed adjustment to the container and running
the handler again yields an adjustment with no mount removal and no mount
addition at all: no second cgroup rewrite (the `ro` option is gone) and no
re-added auxiliary mount (all catalog destinations now exist). -/
theorem claim_C9_idempotence (hc : Bool) (pod : Option PodSandbox) (c : Container)
    (a : ContainerAdjustment)
    (h : CreateContainer hc pod c = (some a, none, none)) :
    ∃ a2, CreateContainer hc pod (applyAdjustment c a) = (some a2, none, none) ∧
      a2.removeMounts = [] ∧ a2.addMounts = [] := by
  have hdet : isSystemdContainer c = true := by
    cases hb : isSystemdContainer c with
    | true => rfl
    | false => simp [CreateContainer, hb] at h
  cases hc with
  | false =>
    have ha : setSystemdEnvironment (addSystemdTmpfsMounts {} c) pod c = a := by
      have h2 := (CreateContainer_ok false pod c {} hdet rfl).symm.trans h
      have h3 := congrArg Prod.fst h2
      simpa using h3
    have hrm : a.removeMounts = [] := by
      rw [← ha, setSystemdEnvironment_removeMounts, addSystemdTmpfsMounts_eq]
    have ham : a.addMounts =
        (tmpfsMounts.filter
          (fun mp => !((c.mounts.map (fun mm => mm.destination)).contains mp.1))).map
            tmpfsMountFor := by
      rw [← ha, setSystemdEnvironment_addMounts, addSystemdTmpfsMounts_eq]
      rfl
    apply run_again false pod c a hdet
    · intro d hd
      rw [hrm] at hd
      cases hd
    · intro x hx hnc
      rw [ham]
      exact List.mem_map_of_mem _ (List.mem_filter.mpr ⟨hx, by rw [hnc]; rfl⟩)
    · exact rfl
  | true =>
    rcases hfind : c.mounts.find? (fun mm => mm.destination == "/sys/fs/cgroup")
      with _ | m
    · have hcg := configureCgroupMount_noMount ({} : ContainerAdjustment) c hfind
      simp [CreateContainer, hdet, hcg] at h
    · have hdest : (m.destination == "/sys/fs/cgroup") = true := by
        have h2 := List.find?_some hfind
        simpa using h2
      cases hro : m.options.contains "ro" with
      | false =>
        have hcg := configureCgroupMount_noRo ({} : ContainerAdjustment) c m hfind hro
        have ha : setSystemdEnvironment (addSystemdTmpfsMounts {} c) pod c = a := by
          have h2 := (CreateContainer_ok true pod c {} hdet hcg).symm.trans h
          have h3 := congrArg Prod.fst h2
          simpa using h3
        have hrm : a.removeMounts = [] := by
          rw [← ha, setSystemdEnvironment_removeMounts, addSystemdTmpfsMounts_eq]
        have ham : a.addMounts =
            (tmpfsMounts.filter
              (fun mp => !((c.mounts.map (fun mm => mm.destination)).contains mp.1))).map
                tmpfsMountFor := by
          rw [← ha, setSystemdEnvironment_addMounts, addSystemdTmpfsMounts_eq]
          rfl
        apply run_again true pod c a hdet
        · intro d hd
          rw [hrm] at hd
          cases hd
        · intro x hx hnc
          rw [ham]
          exact List.mem_map_of_mem _ (List.mem_filter.mpr ⟨hx, by rw [hnc]; rfl⟩)
        · have hfind2 : (applyAdjustment c a).mounts.find?
              (fun mm => mm.destination == "/sys/fs/cgroup") = some m := by
            show ((c.mounts.filter (fun mm => !(a.removeMounts.contains mm.destination))) ++
              a.addMounts).find? (fun mm => mm.destination == "/sys/fs/cgroup") = some m
            simp only [hrm, filter_contains_nil]
            rw [List.find?_append, hfind]
            rfl
          exact configureCgroupMount_noRo {} (applyAdjustment c a) m hfind2 hro
      | true =>
        have hcg := configureCgroupMount_ro ({} : ContainerAdjustment) c m hfind hro
        have ha : setSystemdEnvironment (addSystemdTmpfsMounts
            { removeMounts := ({} : ContainerAdjustment).removeMounts ++ ["/sys/fs/cgroup"],
              addMounts := ({} : ContainerAdjustment).addMounts ++ [⟨m.destination, m.type,
                m.source, m.options.map (fun opt => if opt == "ro" then "rw" else opt)⟩],
              env := ({} : ContainerAdjustment).env } c) pod c = a := by
          have h2 := (CreateContainer_ok true pod c _ hdet hcg).symm.trans h
          have h3 := congrArg Prod.fst h2
          simpa using h3
        have hrm : a.removeMounts = ["/sys/fs/cgroup"] := by
          rw [← ha, setSystemdEnvironment_removeMounts, addSystemdTmpfsMounts_eq]
          rfl
        have ham : a.addMounts =
            (⟨m.destination, m.type, m.source,
              m.options.map (fun opt => if opt == "ro" then "rw" else opt)⟩ : Mount) ::
            ((tmpfsMounts.filter
              (fun mp => !((c.mounts.map (fun mm => mm.destination)).contains mp.1))).map
                tmpfsMountFor) := by
          rw [← ha, setSystemdEnvironment_addMounts, addSystemdTmpfsMounts_eq]
          rfl
        apply run_again true pod c a hdet
        · intro d hd
          rw [hrm] at hd
          simpa using hd
        · intro x hx hnc
          rw [ham]
          exact List.mem_cons_of_mem _
            (List.mem_map_of_mem _ (List.mem_filter.mpr ⟨hx, by rw [hnc]; rfl⟩))
        · have hfind2 : (applyAdjustment c a).mounts.find?
              (fun mm => mm.destination == "/sys/fs/cgroup") =
              some ⟨m.destination, m.type, m.source,
                m.options.map (fun opt => if opt == "ro" then "rw" else opt)⟩ := by
            show ((c.mounts.filter (fun mm => !(a.removeMounts.contains mm.destination))) ++
              a.addMounts).find? (fun mm => mm.destination == "/sys/fs/cgroup") =
              some ⟨m.destination, m.type, m.source,
                m.options.map (fun opt => if opt == "ro" then "rw" else opt)⟩
            simp only [hrm, ham]
            rw [List.find?_append]
            have hnone : (c.mounts.filter
                (fun mm => !((["/sys/fs/cgroup"] : List String).contains mm.destination))).find?
                  (fun mm => mm.destination == "/sys/fs/cgroup") = none := by
              rw [List.find?_eq_none]
              intro x hxf
              have hx2 := (List.mem_filter.mp hxf).2
              simp at hx2 ⊢
              exact hx2
            rw [hnone, Option.none_or]
            exact List.find?_cons_of_pos _ hdest
          have hro2 : ((⟨m.destination, m.type, m.source,
              m.options.map (fun opt => if opt == "ro" then "rw" else opt)⟩ : Mount)).options.contains
                "ro" = false := rw_options_no_ro m.options
          exact configureCgroupMount_noRo {} (applyAdjustment c a) _ hfind2 hro2


/-- Witness for C3 at a `ro` cgroup mount. -/
theorem claim_C3_witness :
    isSystemdContainer ⟨"id1", "c", ["/sbin/init"], [],
        [⟨"/sys/fs/cgroup", "cgroup2", "cgroup", ["ro"]⟩]⟩ = true ∧
    (⟨"id1", "c", ["/sbin/init"], [],
        [⟨"/sys/fs/cgroup", "cgroup2", "cgroup", ["ro"]⟩]⟩ : Container).mounts.find?
      (fun mm => mm.destination == "/sys/fs/cgroup") =
        some ⟨"/sys/fs/cgroup", "cgroup2", "cgroup", ["ro"]⟩ ∧
    (∃ a, CreateContainer true (some ⟨"p", []⟩) ⟨"id1", "c", ["/sbin/init"], [],
          [⟨"/sys/fs/cgroup", "cgroup2", "cgroup", ["ro"]⟩]⟩ = (some a, none, none) ∧
      ((["ro"] : List String).contains "ro" = true →
        a.removeMounts = ["/sys/fs/cgroup"] ∧
        a.addMounts.filter (fun mm => mm.destination == "/sys/fs/cgroup") =
          [⟨"/sys/fs/cgroup", "cgroup2", "cgroup",
            (["ro"] : List String).map (fun opt => if opt == "ro" then "rw" else opt)⟩] ∧
        ((["ro"] : List String).map (fun opt => if opt == "ro" then "rw" else opt)).length =
          (["ro"] : List String).length) ∧
      ((["ro"] : List String).contains "ro" = false →
        a.removeMounts = [] ∧
        a.addMounts.filter (fun mm => mm.destination == "/sys/fs/cgroup") = [])) :=
  ⟨rfl, by decide,
    claim_C3_cgroup_rewrite (some ⟨"p", []⟩) ⟨"id1", "c", ["/sbin/init"], [],
      [⟨"/sys/fs/cgroup", "cgroup2", "cgroup", ["ro"]⟩]⟩
      ⟨"/sys/fs/cgroup", "cgroup2", "cgroup", ["ro"]⟩ rfl (by decide)⟩

/-- Witness for C7 at a host without cgroup support. -/
theorem claim_C7_witness :
    isSystemdContainer ⟨"abc123", "c", ["/sbin/init"], [], []⟩ = true ∧
    (∃ a, CreateContainer false (some ⟨"p", [("io.kubernetes.pod.uid", "xyz")]⟩)
          ⟨"abc123", "c", ["/sbin/init"], [], []⟩ = (some a, none, none) ∧
      a.removeMounts = [] ∧
      a.addMounts =
        [⟨"/run", "tmpfs", "tmpfs", ["rw", "rprivate", "nosuid", "nodev", "mode=755"]⟩,
         ⟨"/run/lock", "tmpfs", "tmpfs", ["rw", "rprivate", "nosuid", "nodev", "mode=755"]⟩,
         ⟨"/tmp", "tmpfs", "tmpfs", ["rw", "rprivate", "nosuid", "nodev", "mode=1777"]⟩,
         ⟨"/var/log/journal", "tmpfs", "tmpfs",
           ["rw", "rprivate", "nosuid", "nodev", "mode=755"]⟩] ∧
      a.addMounts.filter (fun mm => mm.destination == "/sys/fs/cgroup") = [] ∧
      a.env = [⟨"container", "other"⟩, ⟨"container_uuid", "abc123"⟩,
        ⟨"container_uuid", "xyz"⟩]) :=
  ⟨rfl, claim_C7_host_unsupported_soft_skip
    (some ⟨"p", [("io.kubernetes.pod.uid", "xyz")]⟩)
    ⟨"abc123", "c", ["/sbin/init"], [], []⟩ rfl⟩

/-- Witness for C9 at a full first run (host cgroup present, `ro` mount). -/
theorem claim_C9_witness :
    CreateContainer true (some ⟨"pod", [("io.kubernetes.pod.uid", "xyz")]⟩)
        ⟨"abc123", "ctr", ["/sbin/init"], [],
          [⟨"/sys/fs/cgroup", "cgroup2", "cgroup", ["ro"]⟩]⟩ =
      (some ⟨["/sys/fs/cgroup"],
        [⟨"/sys/fs/cgroup", "cgroup2", "cgroup", ["rw"]⟩,
         ⟨"/run", "tmpfs", "tmpfs", ["rw", "rprivate", "nosuid", "nodev", "mode=755"]⟩,
         ⟨"/run/lock", "tmpfs", "tmpfs", ["rw", "rprivate", "nosuid", "nodev", "mode=755"]⟩,
         ⟨"/tmp", "tmpfs", "tmpfs", ["rw", "rprivate", "nosuid", "nodev", "mode=1777"]⟩,
         ⟨"/var/log/journal", "tmpfs", "tmpfs",
           ["rw", "rprivate", "nosuid", "nodev", "mode=755"]⟩],
        [⟨"container", "other"⟩, ⟨"container_uuid", "abc123"⟩, ⟨"container_uuid", "xyz"⟩]⟩,
       none, none) ∧
    (∃ a2, CreateContainer true (some ⟨"pod", [("io.kubernetes.pod.uid", "xyz")]⟩)
        (applyAdjustment ⟨"abc123", "ctr", ["/sbin/init"], [],
            [⟨"/sys/fs/cgroup", "cgroup2", "cgroup", ["ro"]⟩]⟩
          ⟨["/sys/fs/cgroup"],
            [⟨"/sys/fs/cgroup", "cgroup2", "cgroup", ["rw"]⟩,
             ⟨"/run", "tmpfs", "tmpfs", ["rw", "rprivate", "nosuid", "nodev", "mode=755"]⟩,
             ⟨"/run/lock", "tmpfs", "tmpfs",
               ["rw", "rprivate", "nosuid", "nodev", "mode=755"]⟩,
             ⟨"/tmp", "tmpfs", "tmpfs", ["rw", "rprivate", "nosuid", "nodev", "mode=1777"]⟩,
             ⟨"/var/log/journal", "tmpfs", "tmpfs",
               ["rw", "rprivate", "nosuid", "nodev", "mode=755"]⟩],
            [⟨"container", "other"⟩, ⟨"container_uuid", "abc123"⟩,
             ⟨"container_uuid", "xyz"⟩]⟩) = (some a2, none, none) ∧
      a2.removeMounts = [] ∧ a2.addMounts = []) :=
  ⟨by decide,
    claim_C9_idempotence true (some ⟨"pod", [("io.kubernetes.pod.uid", "xyz")]⟩)
      ⟨"abc123", "ctr", ["/sbin/init"], [],
        [⟨"/sys/fs/cgroup", "cgroup2", "cgroup", ["ro"]⟩]⟩
      ⟨["/sys/fs/cgroup"],
        [⟨"/sys/fs/cgroup", "cgroup2", "cgroup", ["rw"]⟩,
         ⟨"/run", "tmpfs", "tmpfs", ["rw", "rprivate", "nosuid", "nodev", "mode=755"]⟩,
         ⟨"/run/lock", "tmpfs", "tmpfs", ["rw", "rprivate", "nosuid", "nodev", "mode=755"]⟩,
         ⟨"/tmp", "tmpfs", "tmpfs", ["rw", "rprivate", "nosuid", "nodev", "mode=1777"]⟩,
         ⟨"/var/log/journal", "tmpfs", "tmpfs",
           ["rw", "rprivate", "nosuid", "nodev", "mode=755"]⟩],
        [⟨"container", "other"⟩, ⟨"container_uuid", "abc123"⟩, ⟨"container_uuid", "xyz"⟩]⟩
      (by decide)⟩

end NriSystemd
